import Mathlib

/-!
Verification of the burst-type typing-trainer state machine
(`src/config/state.ts`) against its natural-language specification.

The reducer is embedded shallowly: JavaScript numbers that only ever hold
millisecond timestamps, levels and streak counts are modelled as `Nat`;
the words-per-minute computation, which divides by a possibly-zero elapsed
time, is modelled over an extended rational type `JsNum` capturing the
IEEE-754 special values that can actually arise there (`Infinity`,
`-Infinity`, `NaN`).  The single place where the JavaScript code can throw
(indexing `state.word.characters[index].character` past the end of the
array inside `Array.prototype.every`) is modelled by returning `none` from
the reducer; every other path returns `some` of the next state.  Audio
loading and playback (`loadSound` / `playSound`) are external side effects
that never influence the returned state and are therefore not modelled.
-/

namespace BurstType

attribute [local semireducible] Rat.mul Rat.add Rat.inv Rat.sub

/-- Extended value of a JavaScript `number` expression as it appears in the
WPM computation: a finite rational, positive or negative infinity, or NaN.
(Rationals stand in for binary floats; the claims verified here do not
depend on float rounding.) -/
inductive JsNum where
  | fin (q : ℚ)
  | posInf
  | negInf
  | nan
deriving DecidableEq

/-- JavaScript division `a / b` of two finite values, including the
division-by-zero cases (`x/0 = ±Infinity` for `x ≠ 0`, `0/0 = NaN`). -/
def jsDivQ (a b : ℚ) : JsNum :=
  if b = 0 then
    if a = 0 then JsNum.nan
    else if 0 < a then JsNum.posInf
    else JsNum.negInf
  else JsNum.fin (a / b)

/-- JavaScript `Math.round`: `⌊x + 1/2⌋` on finite values, identity on the
special values.  (`Rat.floor` is the executable floor on `ℚ`;
`Rat.floor_def` identifies it with `Int.floor`.) -/
def jsRound : JsNum → JsNum
  | JsNum.fin q => JsNum.fin ((Rat.floor (q + 1/2) : ℤ) : ℚ)
  | JsNum.posInf => JsNum.posInf
  | JsNum.negInf => JsNum.negInf
  | JsNum.nan => JsNum.nan

/-- JavaScript `x >= t` for `x` a possibly-special number and `t` finite
(`NaN >= t` is false, `Infinity >= t` is true). -/
def jsGe : JsNum → ℚ → Bool
  | JsNum.fin q, t => decide (t ≤ q)
  | JsNum.posInf, _ => true
  | JsNum.negInf, _ => false
  | JsNum.nan, _ => false

/-- JavaScript `x < t` for `x` a possibly-special number and `t` finite
(`NaN < t` is false). -/
def jsLt : JsNum → ℚ → Bool
  | JsNum.fin q, t => decide (q < t)
  | JsNum.posInf, _ => false
  | JsNum.negInf, _ => true
  | JsNum.nan, _ => false

/-- `Character` from `src/config/state.ts`: one typed character plus its
tri-state correctness (`none` while the position has not been typed). -/
structure Character where
  character : Char
  correct : Option Bool := none
deriving DecidableEq

/-- `Word` from `src/config/state.ts`.  The TypeScript field `match` is a
Lean keyword and is rendered `match'`. -/
structure Word where
  characters : List Character
  startTime : Option Nat := none
  endTime : Option Nat := none
  wpm : Option JsNum := none
  hitTargetWPM : Bool
  match' : Bool
  streak : Nat
deriving DecidableEq

/-- `State` from `src/config/state.ts`. -/
structure State where
  word : Word
  level : Nat
  highestLevel : Option Nat := none
  buffer : String
  targetWPM : ℚ
  targetStreak : Nat
  finished : Bool
  lastSave : Option Nat := none
  showInstructions : Bool
  lastWPM : Option JsNum := none
  darkMode : Bool
  customWordlist : Option (List String) := none
  muted : Bool
  successSounds : List String
  errorSounds : List String
  speedErrorSounds : List String
  clickSounds : List String
deriving DecidableEq

/-- Modelled from the spec: the default wordlist `src/wordlists/en1000.json`
is imported by `state.ts` but is not under `src/`; the spec treats the
wordlist as an externally supplied ordered list of lowercase ASCII words of
length at least 1.  A small representative stand-in is used; no claim
verified below depends on its contents (all concrete witnesses use
`customWordlist`). -/
def en1000 : List String := ["the", "be", "to", "of", "and", "have"]

/-- `createWord` from `src/config/state.ts` line 61: builds a `Word` from
`` `${list[index]} ` `` lowercased and split into characters.  An
out-of-range index makes the JavaScript template literal produce the string
`"undefined"`, which `List.getD` reproduces. -/
def createWord (list : List String) (index : Nat) : Word :=
  { characters := ((list.getD index "undefined") ++ " ").data.map
      (fun c => { character := c.toLower, correct := none })
    match' := false
    hitTargetWPM := false
    streak := 0 }

def defaultLevel : Nat := 0
def defaultTargetWPM : ℚ := 90
def defaultTargetStreak : Nat := 5

def wpmOptions : List ℚ := [30, 60, 90, 120, 200]
def streakOptions : List Nat := [1, 3, 5, 10, 25]

/-- `initialState` from `src/config/state.ts` line 76. -/
def initialState : State :=
  { word := createWord en1000 defaultLevel
    level := defaultLevel
    highestLevel := some defaultLevel
    buffer := ""
    targetWPM := defaultTargetWPM
    targetStreak := defaultTargetStreak
    finished := false
    showInstructions := true
    darkMode := true
    muted := true
    successSounds := ["success"]
    errorSounds := ["error"]
    speedErrorSounds := ["speed-error"]
    clickSounds := ["click"] }

/-- `Action` from `src/config/state.ts` line 93. -/
inductive Action where
  | APPEND_BUFFER (payload : String)
  | JUMP_BACKWARDS
  | JUMP_END
  | JUMP_FORWARDS
  | JUMP_START
  | LOAD_STATE (payload : State)
  | RESET_STATE
  | SAVE_STATE
  | SET_CHARACTERS (payload : List Character)
  | SET_TARGET_STREAK (payload : Nat)
  | SET_TARGET_WPM (payload : ℚ)
  | SET_WORD (payload : Word)
  | SET_WORDLIST (payload : List String)
  | TOGGLE_DARK_MODE
  | TOGGLE_INSTRUCTIONS
  | TOGGLE_MUTED
deriving DecidableEq

/-- The short-circuiting `Array.prototype.every` test of
`src/config/state.ts` line 232: each typed character is compared with
`state.word.characters[index].character`.  If every in-range character
matches but the typed buffer is longer than the word, the JavaScript code
dereferences `undefined` and throws, modelled by `none`. -/
def jsEvery : List Char → List Character → Option Bool
  | [], _ => some true
  | _ :: _, [] => none
  | b :: bs, ch :: chs =>
      if b = ch.character then jsEvery bs chs else some false

/-- The character-recolouring map of `src/config/state.ts` lines 253-259
(and its copies at 308-314, 330-336, 354-360, 372-378): position `index`
gets `correct = appendBuffer[index] === undefined ? undefined :
character.character === appendBuffer[index]`. -/
def recolor : List Character → List Char → List Character
  | [], _ => []
  | ch :: chs, [] => { ch with correct := none } :: recolor chs []
  | ch :: chs, b :: bs =>
      { ch with correct := some (ch.character = b) } :: recolor chs bs

/-- `appendBuffer` of `src/config/state.ts` line 230. -/
def appendBufferOf (state : State) (payload : String) : String :=
  state.buffer ++ payload

/-- `timeElapsed` of `src/config/state.ts` line 233:
`(Date.now() - (state.word.startTime ?? 0)) / 60_000` in minutes. -/
def timeElapsedOf (state : State) (now : Nat) : ℚ :=
  (((now : ℤ) - ((state.word.startTime.getD 0 : Nat) : ℤ) : ℤ) : ℚ) / 60000

/-- `wpm` of `src/config/state.ts` line 234:
`Math.round(appendBuffer.length / 5 / timeElapsed)`. -/
def wpmOf (state : State) (payload : String) (now : Nat) : JsNum :=
  jsRound (jsDivQ (((appendBufferOf state payload).length : ℚ) / 5)
    (timeElapsedOf state now))

/-- `hitTargetWPM` of `src/config/state.ts` line 235. -/
def hitTargetWPMOf (state : State) (payload : String) (now : Nat) : Bool :=
  jsGe (wpmOf state payload now) state.targetWPM

/-- The reducer of `src/config/state.ts` line 134, with `Date.now()` passed
in as `now`.  Returns `none` exactly when the JavaScript code would throw
(see `jsEvery`); every other path returns `some` of the next state. -/
def reducer (state : State) (action : Action) (now : Nat) : Option State :=
  match action with
  | Action.SAVE_STATE => some { state with lastSave := some now }
  | Action.LOAD_STATE payload => some payload
  | Action.SET_TARGET_STREAK payload =>
      some { state with targetStreak := payload, lastSave := some now }
  | Action.SET_TARGET_WPM payload =>
      some { state with targetWPM := payload, lastSave := some now }
  | Action.SET_WORD payload => some { state with word := payload }
  | Action.SET_CHARACTERS payload =>
      some { state with word := { state.word with characters := payload } }
  | Action.SET_WORDLIST payload =>
      some { initialState with
        level := 0
        highestLevel := some 0
        word := createWord payload 0
        targetWPM := state.targetWPM
        targetStreak := state.targetStreak
        darkMode := state.darkMode
        customWordlist := some payload
        lastSave := some now
        showInstructions := false }
  | Action.APPEND_BUFFER payload =>
      if state.showInstructions then some state
      else if state.finished then some state
      else if state.buffer.length = 0 ∧ payload = " " then some state
      else if state.targetStreak ≤ state.word.streak then some state
      else
        match jsEvery (appendBufferOf state payload).data state.word.characters with
        | none => none
        | some false =>
            some { state with
              word := { state.word with
                endTime := some now
                streak := 0
                characters := recolor state.word.characters
                  (appendBufferOf state payload).data
                wpm := some (JsNum.fin 0)
                match' := false
                hitTargetWPM := false }
              buffer := "" }
        | some true =>
            if state.word.endTime = none ∧
                state.word.characters.length ≤ (appendBufferOf state payload).length then
              if state.targetStreak ≤
                  (if hitTargetWPMOf state payload now then state.word.streak + 1 else 0) then
                if state.level + 1 = (state.customWordlist.getD en1000).length then
                  some { state with finished := true, lastSave := some now }
                else
                  some { state with
                    level := state.level + 1
                    highestLevel := some (max (state.highestLevel.getD 0) (state.level + 1))
                    word := createWord (state.customWordlist.getD en1000) (state.level + 1)
                    buffer := ""
                    lastSave := some now }
              else
                some { state with
                  buffer := ""
                  word := { state.word with
                    endTime := some now
                    streak := if hitTargetWPMOf state payload now then state.word.streak + 1 else 0
                    characters := recolor state.word.characters
                      (appendBufferOf state payload).data
                    wpm := some (wpmOf state payload now)
                    match' := true
                    hitTargetWPM := hitTargetWPMOf state payload now }
                  lastWPM := some (wpmOf state payload now) }
            else if state.word.endTime = none ∧
                (appendBufferOf state payload).length < state.word.characters.length then
              some { state with
                buffer := appendBufferOf state payload
                word := { state.word with
                  startTime := some (state.word.startTime.getD now)
                  characters := recolor state.word.characters
                    (appendBufferOf state payload).data } }
            else
              match state.word.wpm with
              | none => some state
              | some w =>
                  if state.word.match' = false ∨ jsLt w state.targetWPM then
                    some { state with
                      word := { createWord (state.customWordlist.getD en1000) state.level with
                        startTime := some now
                        characters := recolor
                          (createWord (state.customWordlist.getD en1000) state.level).characters
                          payload.data }
                      buffer := payload }
                  else if state.word.streak < state.targetStreak then
                    some { state with
                      word := { createWord (state.customWordlist.getD en1000) state.level with
                        startTime := some now
                        characters := recolor
                          (createWord (state.customWordlist.getD en1000) state.level).characters
                          payload.data
                        streak := state.word.streak }
                      buffer := payload }
                  else some state
  | Action.JUMP_FORWARDS =>
      if state.showInstructions then some state
      else
        match state.highestLevel with
        | none => some state
        | some h =>
            some { state with
              level := min h (state.level + 1)
              word := createWord (state.customWordlist.getD en1000) (min h (state.level + 1))
              buffer := ""
              finished := false
              lastSave := some now }
  | Action.JUMP_BACKWARDS =>
      if state.showInstructions then some state
      else
        match state.highestLevel with
        | none => some state
        | some _ =>
            some { state with
              level := max 0 (state.level - 1)
              word := createWord (state.customWordlist.getD en1000) (max 0 (state.level - 1))
              buffer := ""
              finished := false
              lastSave := some now }
  | Action.JUMP_START =>
      if state.showInstructions then some state
      else
        some { state with
          level := 0
          word := createWord (state.customWordlist.getD en1000) 0
          buffer := ""
          finished := false
          lastSave := some now }
  | Action.JUMP_END =>
      if state.showInstructions then some state
      else
        match state.highestLevel with
        | none => some state
        | some h =>
            some { state with
              level := h
              word := createWord (state.customWordlist.getD en1000) h
              buffer := ""
              finished := false
              lastSave := some now }
  | Action.RESET_STATE => some { initialState with lastSave := some now }
  | Action.TOGGLE_INSTRUCTIONS =>
      some { state with showInstructions := !state.showInstructions }
  | Action.TOGGLE_DARK_MODE =>
      some { state with darkMode := !state.darkMode, lastSave := some now }
  | Action.TOGGLE_MUTED =>
      some { state with muted := !state.muted, lastSave := some now }

/-- Recolouring positions never changes which characters a word holds. -/
theorem recolor_map_character (chs : List Character) (bs : List Char) :
    (recolor chs bs).map Character.character = chs.map Character.character := by
  induction chs generalizing bs with
  | nil => cases bs <;> rfl
  | cons ch chs ih =>
      cases bs with
      | nil => simp [recolor, ih]
      | cons b bs => simp [recolor, ih]

/-- A word for a single concrete wordlist entry (used by concrete states). -/
def mkWord (entry : String) : Word := createWord [entry] 0

/-- A concrete mid-session state: instructions dismissed, word `"cat "`,
empty buffer, custom wordlist `["cat"]`, default-ish settings. -/
def baseState : State :=
  { word := mkWord "cat"
    level := 0
    highestLevel := some 0
    buffer := ""
    targetWPM := 30
    targetStreak := 5
    finished := false
    showInstructions := false
    darkMode := true
    muted := true
    customWordlist := some ["cat"]
    successSounds := ["success"]
    errorSounds := ["error"]
    speedErrorSounds := ["speed-error"]
    clickSounds := ["click"] }

/-- C5: `createWord` builds the entry plus one trailing space, lowercased,
with all correctness marks unknown, zero streak, no flags, no timestamps. -/
theorem createWord_spec (list : List String) (i : Nat) (h : i < list.length) :
    (createWord list i).characters.length = (list.get ⟨i, h⟩).length + 1
    ∧ (∀ ch ∈ (createWord list i).characters, ch.correct = none)
    ∧ (createWord list i).streak = 0
    ∧ (createWord list i).match' = false
    ∧ (createWord list i).hitTargetWPM = false
    ∧ (createWord list i).startTime = none
    ∧ (createWord list i).endTime = none
    ∧ (createWord list i).wpm = none
    ∧ (createWord list i).characters.map Character.character
        = ((list.get ⟨i, h⟩).data.map Char.toLower) ++ [Char.toLower ' '] := by
  have hget : list.getD i "undefined" = list.get ⟨i, h⟩ := by
    rw [List.getD_eq_getElem?_getD, List.getElem?_eq_getElem h]
    rfl
  refine ⟨?_, ?_, rfl, rfl, rfl, rfl, rfl, rfl, ?_⟩
  · show (((list.getD i "undefined") ++ " ").data.map _).length = _
    rw [hget, List.length_map, String.data_append, List.length_append]
    rfl
  · intro ch hch
    simp only [createWord, List.mem_map] at hch
    obtain ⟨c, -, rfl⟩ := hch
    rfl
  · show (((list.getD i "undefined") ++ " ").data.map _).map Character.character = _
    rw [hget, List.map_map, String.data_append, List.map_append]
    rfl

/-- C5 witness: `createWord ["ab"] 0` satisfies the factory contract. -/
theorem createWord_spec_witness :
    (0 < (["ab"] : List String).length)
    ∧ ((createWord ["ab"] 0).characters.length
          = ((["ab"] : List String).get ⟨0, by decide⟩).length + 1
        ∧ (∀ ch ∈ (createWord ["ab"] 0).characters, ch.correct = none)
        ∧ (createWord ["ab"] 0).streak = 0
        ∧ (createWord ["ab"] 0).match' = false
        ∧ (createWord ["ab"] 0).hitTargetWPM = false
        ∧ (createWord ["ab"] 0).startTime = none
        ∧ (createWord ["ab"] 0).endTime = none
        ∧ (createWord ["ab"] 0).wpm = none
        ∧ (createWord ["ab"] 0).characters.map Character.character
            = (((["ab"] : List String).get ⟨0, by decide⟩).data.map Char.toLower)
              ++ [Char.toLower ' ']) :=
  ⟨by decide, createWord_spec ["ab"] 0 (by decide)⟩

/-- C8: toggling mute twice returns to the original state except for the
save timestamp. -/
theorem toggle_muted_involutive (s : State) (t1 t2 : Nat) :
    (reducer s Action.TOGGLE_MUTED t1).bind
        (fun s1 => reducer s1 Action.TOGGLE_MUTED t2)
      = some { s with lastSave := some t2 } := by
  simp [reducer, Bool.not_not]

/-- C10: `SET_WORDLIST` spreads `initialState`, so the muted flag snaps back
to the initial value `true` regardless of the previous preference, while the
WPM/streak targets and the dark-mode setting are carried over. -/
theorem set_wordlist_resets_muted (s : State) (p : List String) (now : Nat) :
    (reducer s (Action.SET_WORDLIST p) now).map
        (fun s2 => (s2.muted, s2.targetWPM, s2.targetStreak, s2.darkMode))
      = some (initialState.muted, s.targetWPM, s.targetStreak, s.darkMode)
    ∧ initialState.muted = true := by
  exact ⟨rfl, rfl⟩

/-- C7: with instructions dismissed and a recorded highest level,
`JUMP_FORWARDS` clamps the level to at most `highestLevel` and
`JUMP_BACKWARDS` to at least 0; both regenerate the word at the new level,
clear the buffer, clear `finished` and stamp `lastSave`. -/
theorem jump_clamps (s : State) (now : Nat) (h : Nat)
    (hI : s.showInstructions = false) (hH : s.highestLevel = some h) :
    (reducer s Action.JUMP_FORWARDS now).map
        (fun s2 => (s2.level, s2.word, s2.buffer, s2.finished, s2.lastSave))
      = some (min h (s.level + 1),
          createWord (s.customWordlist.getD en1000) (min h (s.level + 1)),
          "", false, some now)
    ∧ min h (s.level + 1) ≤ h
    ∧ (reducer s Action.JUMP_BACKWARDS now).map
        (fun s2 => (s2.level, s2.word, s2.buffer, s2.finished, s2.lastSave))
      = some (max 0 (s.level - 1),
          createWord (s.customWordlist.getD en1000) (max 0 (s.level - 1)),
          "", false, some now) := by
  refine ⟨?_, min_le_left _ _, ?_⟩ <;> simp [reducer, hI, hH]

/-- C7 witness: jumping at `baseState`. -/
theorem jump_clamps_witness :
    (baseState.showInstructions = false ∧ baseState.highestLevel = some 0)
    ∧ ((reducer baseState Action.JUMP_FORWARDS 9).map
          (fun s2 => (s2.level, s2.word, s2.buffer, s2.finished, s2.lastSave))
        = some (min 0 (baseState.level + 1),
            createWord (baseState.customWordlist.getD en1000) (min 0 (baseState.level + 1)),
            "", false, some 9)
      ∧ min 0 (baseState.level + 1) ≤ 0
      ∧ (reducer baseState Action.JUMP_BACKWARDS 9).map
          (fun s2 => (s2.level, s2.word, s2.buffer, s2.finished, s2.lastSave))
        = some (max 0 (baseState.level - 1),
            createWord (baseState.customWordlist.getD en1000) (max 0 (baseState.level - 1)),
            "", false, some 9)) :=
  ⟨by decide, jump_clamps baseState 9 0 (by decide) (by decide)⟩

/-- A Typing-phase state whose word already carries a nonzero streak
(reachable in principle via `LOAD_STATE`; used to exhibit that the
space-on-empty-buffer guard fires before the mismatch reset). -/
def c1cs : State :=
  { baseState with word := { mkWord "cat" with streak := 2 } }

/-- C1 counterexample: in the Typing phase (instructions off, not finished,
streak below target), appending `" "` to the empty buffer produces a buffer
that does not match the word `"cat "`, yet the reducer returns the state
unchanged — the streak stays 2 instead of resetting to 0 and `endTime` is
not stamped, because the leading-space guard fires before the evaluator. -/
theorem append_mismatch_resets_cex :
    reducer c1cs (Action.APPEND_BUFFER " ") 777 = some c1cs
    ∧ c1cs.showInstructions = false
    ∧ c1cs.finished = false
    ∧ c1cs.word.streak < c1cs.targetStreak
    ∧ jsEvery (c1cs.buffer ++ " ").data c1cs.word.characters = some false
    ∧ c1cs.word.streak = 2
    ∧ ¬(c1cs.word.streak = 0)
    ∧ ¬(c1cs.word.endTime = some 777)
    ∧ ¬(c1cs.word.wpm = some (JsNum.fin 0)) := by
  decide

/-- C1 (amended): in the Typing phase, a mismatched appended character that
is not a leading space on an empty buffer resets the buffer to empty and
produces a word with `streak = 0`, `endTime = now`, `wpm = 0`,
`match = false`, `hitTargetWPM = false`, with the level unchanged. -/
theorem append_mismatch_resets (s : State) (p : String) (now : Nat)
    (hI : s.showInstructions = false) (hF : s.finished = false)
    (hStreak : s.word.streak < s.targetStreak)
    (hSpace : ¬(s.buffer.length = 0 ∧ p = " "))
    (hMatch : jsEvery (s.buffer ++ p).data s.word.characters = some false) :
    (reducer s (Action.APPEND_BUFFER p) now).map
        (fun s2 => (s2.buffer, s2.word.streak, s2.word.endTime, s2.word.wpm,
          s2.word.match', s2.word.hitTargetWPM, s2.level))
      = some ("", 0, some now, some (JsNum.fin 0), false, false, s.level) := by
  simp only [reducer, appendBufferOf, hI, hF, Bool.false_eq_true, if_false,
    if_neg hSpace, if_neg (Nat.not_le.mpr hStreak), hMatch]
  rfl

/-- C1 witness: a plain wrong first character at `baseState`. -/
theorem append_mismatch_resets_witness :
    (baseState.showInstructions = false
      ∧ baseState.finished = false
      ∧ baseState.word.streak < baseState.targetStreak
      ∧ ¬(baseState.buffer.length = 0 ∧ "x" = " ")
      ∧ jsEvery (baseState.buffer ++ "x").data baseState.word.characters = some false)
    ∧ (reducer baseState (Action.APPEND_BUFFER "x") 42).map
        (fun s2 => (s2.buffer, s2.word.streak, s2.word.endTime, s2.word.wpm,
          s2.word.match', s2.word.hitTargetWPM, s2.level))
      = some ("", 0, some 42, some (JsNum.fin 0), false, false, baseState.level) :=
  ⟨by decide, append_mismatch_resets baseState "x" 42 (by decide) (by decide)
    (by decide) (by decide) (by decide)⟩

/-- C2: once `finished` is set, `APPEND_BUFFER` never mutates the state;
and when a just-completed, fully matched word lifts the streak to the
target, the reducer either sets `finished` (when `level + 1` equals the
active wordlist length) or advances the level, raises `highestLevel` with a
`max`, regenerates the word via the factory at the new level, clears the
buffer and stamps `lastSave`. -/
theorem streak_target_advance_or_finish (s : State) (p : String) (now : Nat) :
    (s.finished = true → reducer s (Action.APPEND_BUFFER p) now = some s)
    ∧ (∀ hl : Nat, s.showInstructions = false → s.finished = false →
        ¬(s.buffer.length = 0 ∧ p = " ") →
        s.word.streak < s.targetStreak →
        s.word.endTime = none →
        jsEvery (s.buffer ++ p).data s.word.characters = some true →
        s.word.characters.length ≤ (s.buffer ++ p).length →
        s.highestLevel = some hl →
        s.targetStreak ≤ (if hitTargetWPMOf s p now then s.word.streak + 1 else 0) →
        ((s.level + 1 = (s.customWordlist.getD en1000).length →
            reducer s (Action.APPEND_BUFFER p) now
              = some { s with finished := true, lastSave := some now })
          ∧ (s.level + 1 ≠ (s.customWordlist.getD en1000).length →
            reducer s (Action.APPEND_BUFFER p) now
              = some { s with
                  level := s.level + 1
                  highestLevel := some (max hl (s.level + 1))
                  word := createWord (s.customWordlist.getD en1000) (s.level + 1)
                  buffer := ""
                  lastSave := some now }))) := by
  constructor
  · intro hFin
    by_cases hI : s.showInstructions = true <;>
      simp [reducer, hI, hFin]
  · intro hl hI hF hSpace hStreak hEnd hMatch hLen hH hNS
    simp only [reducer, appendBufferOf, hI, hF, Bool.false_eq_true, if_false,
      if_neg hSpace, if_neg (Nat.not_le.mpr hStreak), hMatch,
      if_pos (And.intro hEnd hLen), if_pos hNS, hH]
    constructor
    · intro hLast
      rw [if_pos hLast]
    · intro hLast
      rw [if_neg hLast]
      rfl

/-- C2 witness: on wordlist `["a", "b"]` with `targetStreak = 1`, fast
completion of `"a "` advances level 0 → 1; a finished state absorbs
keystrokes. -/
def c2s : State :=
  { baseState with
    targetStreak := 1
    targetWPM := 90
    customWordlist := some ["a", "b"]
    buffer := "a"
    word := { createWord ["a", "b"] 0 with startTime := some 0 } }

theorem streak_target_advance_or_finish_witness :
    ((baseState.finished = false ∧ reducer c2s (Action.APPEND_BUFFER "q") 3
        = reducer c2s (Action.APPEND_BUFFER "q") 3)
      ∧ { c2s with finished := true }.finished = true
      ∧ c2s.showInstructions = false ∧ c2s.finished = false
      ∧ ¬(c2s.buffer.length = 0 ∧ " " = " ")
      ∧ c2s.word.streak < c2s.targetStreak
      ∧ c2s.word.endTime = none
      ∧ jsEvery (c2s.buffer ++ " ").data c2s.word.characters = some true
      ∧ c2s.word.characters.length ≤ (c2s.buffer ++ " ").length
      ∧ c2s.highestLevel = some 0
      ∧ c2s.targetStreak ≤ (if hitTargetWPMOf c2s " " 100 then c2s.word.streak + 1 else 0)
      ∧ c2s.level + 1 ≠ (c2s.customWordlist.getD en1000).length)
    ∧ reducer { c2s with finished := true } (Action.APPEND_BUFFER "q") 3
        = some { c2s with finished := true }
    ∧ reducer c2s (Action.APPEND_BUFFER " ") 100
        = some { c2s with
            level := c2s.level + 1
            highestLevel := some (max 0 (c2s.level + 1))
            word := createWord (c2s.customWordlist.getD en1000) (c2s.level + 1)
            buffer := ""
            lastSave := some 100 } :=
  ⟨by decide,
    (streak_target_advance_or_finish { c2s with finished := true } "q" 3).1 (by decide),
    ((streak_target_advance_or_finish c2s " " 100).2 0 (by decide) (by decide)
      (by decide) (by decide) (by decide) (by decide) (by decide) (by decide)
      (by decide)).2 (by decide)⟩

/-- An AwaitingConfirm state: word `"cat "` completed fast and correctly
with a carried streak of 1, still below the target of 5. -/
def c3s : State :=
  { baseState with
    word := { mkWord "cat" with
      endTime := some 100
      wpm := some (JsNum.fin 50)
      match' := true
      hitTargetWPM := true
      streak := 1 } }

/-- C3 counterexample: the replay transition carries the streak over
unchanged — from a word with streak 1, the next keystroke produces a word
whose streak is again 1, which is neither 0 nor the previous streak plus 1. -/
theorem append_streak_step_cex :
    (reducer c3s (Action.APPEND_BUFFER "c") 200).map (fun s2 => s2.word.streak)
        = some 1
    ∧ c3s.word.streak = 1
    ∧ ¬((1 : Nat) = 0 ∨ (1 : Nat) = c3s.word.streak + 1) := by
  decide

/-- C3 (amended): every non-faulting `APPEND_BUFFER` transition leaves the
word's streak at 0, carries it over unchanged, or increments it by exactly
1; and a strict increase happens only by exactly 1 and only on a completed
(`endTime` unset, buffer reaching full length), fully matched,
target-WPM-hitting attempt. -/
theorem append_streak_step (s : State) (p : String) (now : Nat) (s2 : State)
    (hR : reducer s (Action.APPEND_BUFFER p) now = some s2) :
    (s2.word.streak = 0 ∨ s2.word.streak = s.word.streak
      ∨ s2.word.streak = s.word.streak + 1)
    ∧ (s.word.streak < s2.word.streak →
        s2.word.streak = s.word.streak + 1
        ∧ s.word.endTime = none
        ∧ jsEvery (s.buffer ++ p).data s.word.characters = some true
        ∧ s.word.characters.length ≤ (s.buffer ++ p).length
        ∧ hitTargetWPMOf s p now = true) := by
  simp only [reducer, appendBufferOf] at hR
  split at hR
  · injection hR with h; subst h
    exact ⟨Or.inr (Or.inl rfl), fun hlt => absurd hlt (lt_irrefl _)⟩
  split at hR
  · injection hR with h; subst h
    exact ⟨Or.inr (Or.inl rfl), fun hlt => absurd hlt (lt_irrefl _)⟩
  split at hR
  · injection hR with h; subst h
    exact ⟨Or.inr (Or.inl rfl), fun hlt => absurd hlt (lt_irrefl _)⟩
  split at hR
  · injection hR with h; subst h
    exact ⟨Or.inr (Or.inl rfl), fun hlt => absurd hlt (lt_irrefl _)⟩
  split at hR
  · exact absurd hR (by simp)
  · -- mismatch branch: streak reset to 0
    injection hR with h; subst h
    exact ⟨Or.inl rfl, fun hlt => absurd hlt (Nat.not_lt_zero _)⟩
  · -- matched branch
    rename_i heq
    split at hR
    · -- word completed: first split the hit-target ite, then the streak
      -- threshold, then the end-of-wordlist test
      rename_i hcomp
      split at hR
      · -- target WPM hit: candidate streak is streak + 1
        rename_i hHit
        split at hR
        · -- streak target reached
          split at hR
          · -- finished: word untouched
            injection hR with h; subst h
            exact ⟨Or.inr (Or.inl rfl), fun hlt => absurd hlt (lt_irrefl _)⟩
          · -- level advance: fresh word, streak 0
            injection hR with h; subst h
            exact ⟨Or.inl rfl, fun hlt => absurd hlt (Nat.not_lt_zero _)⟩
        · -- stay in AwaitingConfirm with streak + 1
          injection hR with h; subst h
          exact ⟨Or.inr (Or.inr rfl), fun _ => ⟨rfl, hcomp.1, heq, hcomp.2, hHit⟩⟩
      · -- target WPM missed: candidate streak is 0
        split at hR
        · -- streak target reached (only possible when targetStreak = 0)
          split at hR
          · injection hR with h; subst h
            exact ⟨Or.inr (Or.inl rfl), fun hlt => absurd hlt (lt_irrefl _)⟩
          · injection hR with h; subst h
            exact ⟨Or.inl rfl, fun hlt => absurd hlt (Nat.not_lt_zero _)⟩
        · -- stay with streak reset to 0
          injection hR with h; subst h
          exact ⟨Or.inl rfl, fun hlt => absurd hlt (Nat.not_lt_zero _)⟩
    · split at hR
      · -- mid-word progress: word streak untouched
        injection hR with h; subst h
        exact ⟨Or.inr (Or.inl rfl), fun hlt => absurd hlt (lt_irrefl _)⟩
      · split at hR
        · -- wpm undefined: no-op
          injection hR with h; subst h
          exact ⟨Or.inr (Or.inl rfl), fun hlt => absurd hlt (lt_irrefl _)⟩
        · -- replay
          split at hR
          · -- failed prior attempt: streak 0
            injection hR with h; subst h
            exact ⟨Or.inl rfl, fun hlt => absurd hlt (Nat.not_lt_zero _)⟩
          split at hR
          · -- successful prior attempt below target: streak carried
            injection hR with h; subst h
            exact ⟨Or.inr (Or.inl rfl), fun hlt => absurd hlt (lt_irrefl _)⟩
          · injection hR with h; subst h
            exact ⟨Or.inr (Or.inl rfl), fun hlt => absurd hlt (lt_irrefl _)⟩

/-- C3 witness: the no-op transition at `initialState` (instructions shown)
satisfies both conjuncts. -/
theorem append_streak_step_witness :
    reducer initialState (Action.APPEND_BUFFER "a") 7 = some initialState
    ∧ ((initialState.word.streak = 0 ∨ initialState.word.streak = initialState.word.streak
        ∨ initialState.word.streak = initialState.word.streak + 1)
      ∧ (initialState.word.streak < initialState.word.streak →
          initialState.word.streak = initialState.word.streak + 1
          ∧ initialState.word.endTime = none
          ∧ jsEvery (initialState.buffer ++ "a").data initialState.word.characters = some true
          ∧ initialState.word.characters.length ≤ (initialState.buffer ++ "a").length
          ∧ hitTargetWPMOf initialState "a" 7 = true)) :=
  ⟨by decide, append_streak_step initialState "a" 7 initialState (by decide)⟩

/-- C4 counterexample: in the AwaitingConfirm state `c3s` (completed word,
`wpm` recorded, streak 1 below target, prior attempt matched and fast), the
keystroke `"x"` does NOT mismatch-proofly start a replay: the evaluator runs
first, `"x"` fails to match `'c'`, and the mismatch branch fires — the
buffer stays empty instead of seeding `"x"`, `endTime` is restamped instead
of cleared, `startTime` is not set to now, and the streak resets to 0
instead of being carried. -/
theorem awaiting_confirm_replay_cex :
    c3s.word.endTime = some 100
    ∧ c3s.word.wpm = some (JsNum.fin 50)
    ∧ c3s.word.streak < c3s.targetStreak
    ∧ c3s.word.match' = true
    ∧ jsLt (JsNum.fin 50) c3s.targetWPM = false
    ∧ c3s.word.streak = 1
    ∧ (reducer c3s (Action.APPEND_BUFFER "x") 500).map
        (fun s2 => (s2.buffer, s2.word.startTime, s2.word.endTime, s2.word.streak))
      = some ("", none, some 500, 0)
    ∧ ("" : String) ≠ "x"
    ∧ (some 500 : Option Nat) ≠ none
    ∧ (0 : Nat) ≠ c3s.word.streak := by
  decide

/-- C4 (amended): in the AwaitingConfirm phase (empty buffer, `endTime` and
`wpm` recorded, streak below target), a non-space keystroke whose character
matches the word's first character starts a replay: the factory word for
the same level, `startTime = now`, the typed character seeded as the new
buffer, and the streak carried over exactly when the prior completed
attempt had `match = true` and its WPM not below the target, otherwise 0. -/
theorem awaiting_confirm_replay (s : State) (p : String) (c : Char) (now : Nat)
    (et : Nat) (w : JsNum) (w0 : Character) (rest : List Character)
    (hI : s.showInstructions = false) (hF : s.finished = false)
    (hB : s.buffer = "") (hP : p.data = [c]) (hps : p ≠ " ")
    (hC : s.word.characters = w0 :: rest) (hc : c = w0.character)
    (hE : s.word.endTime = some et) (hW : s.word.wpm = some w)
    (hStreak : s.word.streak < s.targetStreak) :
    (reducer s (Action.APPEND_BUFFER p) now).map
        (fun s2 => (s2.buffer, s2.level, s2.word.startTime, s2.word.endTime,
          s2.word.wpm, s2.word.match', s2.word.hitTargetWPM,
          s2.word.characters.map Character.character, s2.word.streak))
      = some (p, s.level, some now, none, none, false, false,
          (createWord (s.customWordlist.getD en1000) s.level).characters.map
            Character.character,
          if s.word.match' = true ∧ jsLt w s.targetWPM = false
            then s.word.streak else 0) := by
  have hbp : (s.buffer ++ p).data = [c] := by
    rw [String.data_append, hB, hP]; rfl
  have hev : jsEvery (s.buffer ++ p).data s.word.characters = some true := by
    rw [hbp, hC]
    simp [jsEvery, hc]
  have hsp : ¬(s.buffer.length = 0 ∧ p = " ") := fun h => hps h.2
  have hns : ¬s.targetStreak ≤ s.word.streak := Nat.not_le.mpr hStreak
  have hnc1 : ¬(s.word.endTime = none ∧
      s.word.characters.length ≤ (s.buffer ++ p).length) := by
    rintro ⟨h1, -⟩; rw [hE] at h1; cases h1
  have hnc2 : ¬(s.word.endTime = none ∧
      (s.buffer ++ p).length < s.word.characters.length) := by
    rintro ⟨h1, -⟩; rw [hE] at h1; cases h1
  simp only [reducer, appendBufferOf, hI, hF, Bool.false_eq_true, if_false,
    if_neg hsp, if_neg hns, hev, if_neg hnc1, if_neg hnc2, hW]
  by_cases hcond : s.word.match' = false ∨ jsLt w s.targetWPM = true
  · have hite : (if s.word.match' = true ∧ jsLt w s.targetWPM = false
        then s.word.streak else 0) = 0 := by
      apply if_neg
      rintro ⟨h1, h2⟩
      rcases hcond with h | h
      · rw [h1] at h; cases h
      · rw [h2] at h; cases h
    rw [if_pos hcond, hite]
    simp [recolor_map_character, createWord]
  · have hmt : s.word.match' = true := by
      cases hmatch : s.word.match' with
      | true => rfl
      | false => exact absurd (Or.inl hmatch) hcond
    have hjf : jsLt w s.targetWPM = false := by
      cases hj : jsLt w s.targetWPM with
      | false => rfl
      | true => exact absurd (Or.inr hj) hcond
    have hite : (if s.word.match' = true ∧ jsLt w s.targetWPM = false
        then s.word.streak else 0) = s.word.streak := if_pos ⟨hmt, hjf⟩
    rw [if_neg hcond, if_pos hStreak, hite]
    simp [recolor_map_character, createWord]

/-- C4 witness: the matching keystroke `"c"` at `c3s` replays `"cat "` with
the streak of 1 carried over. -/
theorem awaiting_confirm_replay_witness :
    (c3s.showInstructions = false ∧ c3s.finished = false ∧ c3s.buffer = ""
      ∧ ("c" : String).data = ['c'] ∧ ("c" : String) ≠ " "
      ∧ c3s.word.characters = ({ character := 'c', correct := none } : Character)
          :: [{ character := 'a', correct := none },
              { character := 't', correct := none },
              { character := ' ', correct := none }]
      ∧ 'c' = ({ character := 'c', correct := none } : Character).character
      ∧ c3s.word.endTime = some 100 ∧ c3s.word.wpm = some (JsNum.fin 50)
      ∧ c3s.word.streak < c3s.targetStreak)
    ∧ (reducer c3s (Action.APPEND_BUFFER "c") 200).map
        (fun s2 => (s2.buffer, s2.level, s2.word.startTime, s2.word.endTime,
          s2.word.wpm, s2.word.match', s2.word.hitTargetWPM,
          s2.word.characters.map Character.character, s2.word.streak))
      = some ("c", c3s.level, some 200, none, none, false, false,
          (createWord (c3s.customWordlist.getD en1000) c3s.level).characters.map
            Character.character,
          if c3s.word.match' = true ∧ jsLt (JsNum.fin 50) c3s.targetWPM = false
            then c3s.word.streak else 0) :=
  ⟨by decide,
    awaiting_confirm_replay c3s "c" 'c' 200 100 (JsNum.fin 50)
      { character := 'c', correct := none }
      [{ character := 'a', correct := none },
       { character := 't', correct := none },
       { character := ' ', correct := none }]
      (by decide) (by decide) (by decide) (by decide) (by decide) (by decide)
      (by decide) (by decide) (by decide) (by decide)⟩

/-- A Typing-phase state one keystroke away from completing `"cat "`, whose
`startTime` equals the completion instant (zero elapsed time). -/
def c6s : State :=
  { baseState with
    buffer := "cat"
    word := { mkWord "cat" with startTime := some 50 } }

/-- C6 counterexample: completing the word with zero elapsed time does not
fault, but the division yields `Infinity`, so the attempt PASSES the target
(`hitTargetWPM = true`, streak incremented) instead of failing it. -/
theorem zero_elapsed_cex :
    c6s.word.startTime = some 50
    ∧ (reducer c6s (Action.APPEND_BUFFER " ") 50).map
        (fun s2 => (s2.word.hitTargetWPM, s2.word.wpm, s2.word.streak))
      = some (true, some JsNum.posInf, 1)
    ∧ (true : Bool) ≠ false := by
  decide

/-- C6 (amended): when a word completes with `now - startTime = 0`, the WPM
computation does not fault — the division produces `Infinity` — and the
attempt is treated as PASSING the target WPM (`hitTargetWPM = true`, the
streak increments). -/
theorem zero_elapsed_passes_target (s : State) (p : String) (now : Nat)
    (hI : s.showInstructions = false) (hF : s.finished = false)
    (hSpace : ¬(s.buffer.length = 0 ∧ p = " "))
    (hEnd : s.word.endTime = none)
    (hMatch : jsEvery (s.buffer ++ p).data s.word.characters = some true)
    (hLen : s.word.characters.length ≤ (s.buffer ++ p).length)
    (hStart : s.word.startTime = some now)
    (hPos : 0 < (s.buffer ++ p).length)
    (hStay : s.word.streak + 1 < s.targetStreak) :
    wpmOf s p now = JsNum.posInf
    ∧ hitTargetWPMOf s p now = true
    ∧ (reducer s (Action.APPEND_BUFFER p) now).map
        (fun s2 => (s2.word.wpm, s2.word.hitTargetWPM, s2.word.streak))
      = some (some JsNum.posInf, true, s.word.streak + 1) := by
  have hTE : timeElapsedOf s now = 0 := by
    simp [timeElapsedOf, hStart]
  have hwpm : wpmOf s p now = JsNum.posInf := by
    rw [wpmOf, hTE, jsDivQ, if_pos rfl, if_neg, if_pos]
    · rfl
    · positivity
    · positivity
  have hhit : hitTargetWPMOf s p now = true := by
    rw [hitTargetWPMOf, hwpm]; rfl
  refine ⟨hwpm, hhit, ?_⟩
  simp only [reducer, appendBufferOf, hI, hF, Bool.false_eq_true, if_false,
    if_neg hSpace, if_neg (Nat.not_le.mpr (Nat.lt_of_succ_lt hStay)), hMatch,
    if_pos (And.intro hEnd hLen), hhit, if_true,
    if_neg (Nat.not_le.mpr hStay), hwpm]
  rfl

/-- C6 witness: completing `"cat "` at the very instant typing started. -/
theorem zero_elapsed_passes_target_witness :
    (c6s.showInstructions = false ∧ c6s.finished = false
      ∧ ¬(c6s.buffer.length = 0 ∧ (" " : String) = " ")
      ∧ c6s.word.endTime = none
      ∧ jsEvery (c6s.buffer ++ " ").data c6s.word.characters = some true
      ∧ c6s.word.characters.length ≤ (c6s.buffer ++ " ").length
      ∧ c6s.word.startTime = some 50
      ∧ 0 < (c6s.buffer ++ " ").length
      ∧ c6s.word.streak + 1 < c6s.targetStreak)
    ∧ (wpmOf c6s " " 50 = JsNum.posInf
      ∧ hitTargetWPMOf c6s " " 50 = true
      ∧ (reducer c6s (Action.APPEND_BUFFER " ") 50).map
          (fun s2 => (s2.word.wpm, s2.word.hitTargetWPM, s2.word.streak))
        = some (some JsNum.posInf, true, c6s.word.streak + 1)) :=
  ⟨by decide,
    zero_elapsed_passes_target c6s " " 50 (by decide) (by decide) (by decide)
      (by decide) (by decide) (by decide) (by decide) (by decide) (by decide)⟩

/-- C9: the invariant `level ≤ highestLevel` is preserved by every action
except `LOAD_STATE` — level advance raises `highestLevel` with a `max`,
`JUMP_FORWARDS` clamps to `highestLevel`, `SET_WORDLIST` and `RESET_STATE`
reset both to 0, and everything else leaves both fields unchanged. -/
theorem level_le_highest_invariant (s : State) (a : Action) (now : Nat)
    (h : Nat) (hH : s.highestLevel = some h) (hL : s.level ≤ h)
    (hA : ∀ p, a ≠ Action.LOAD_STATE p)
    (s2 : State) (hR : reducer s a now = some s2) :
    ∃ h2, s2.highestLevel = some h2 ∧ s2.level ≤ h2 := by
  cases a with
  | LOAD_STATE p => exact absurd rfl (hA p)
  | SAVE_STATE =>
      injection hR with hh; subst hh; exact ⟨h, hH, hL⟩
  | SET_TARGET_STREAK p =>
      injection hR with hh; subst hh; exact ⟨h, hH, hL⟩
  | SET_TARGET_WPM p =>
      injection hR with hh; subst hh; exact ⟨h, hH, hL⟩
  | SET_WORD p =>
      injection hR with hh; subst hh; exact ⟨h, hH, hL⟩
  | SET_CHARACTERS p =>
      injection hR with hh; subst hh; exact ⟨h, hH, hL⟩
  | SET_WORDLIST p =>
      injection hR with hh; subst hh; exact ⟨0, rfl, Nat.le_refl 0⟩
  | RESET_STATE =>
      injection hR with hh; subst hh; exact ⟨0, rfl, Nat.le_refl 0⟩
  | TOGGLE_INSTRUCTIONS =>
      injection hR with hh; subst hh; exact ⟨h, hH, hL⟩
  | TOGGLE_DARK_MODE =>
      injection hR with hh; subst hh; exact ⟨h, hH, hL⟩
  | TOGGLE_MUTED =>
      injection hR with hh; subst hh; exact ⟨h, hH, hL⟩
  | JUMP_FORWARDS =>
      simp only [reducer] at hR
      split at hR
      · injection hR with hh; subst hh; exact ⟨h, hH, hL⟩
      · simp only [hH] at hR
        injection hR with hh; subst hh
        exact ⟨h, rfl, inf_le_left⟩
  | JUMP_BACKWARDS =>
      simp only [reducer] at hR
      split at hR
      · injection hR with hh; subst hh; exact ⟨h, hH, hL⟩
      · simp only [hH] at hR
        injection hR with hh; subst hh
        refine ⟨h, rfl, ?_⟩
        show (0 : ℕ) ⊔ (s.level - 1) ≤ h
        rw [Nat.zero_max]
        omega
  | JUMP_START =>
      simp only [reducer] at hR
      split at hR
      · injection hR with hh; subst hh; exact ⟨h, hH, hL⟩
      · injection hR with hh; subst hh; exact ⟨h, hH, Nat.zero_le h⟩
  | JUMP_END =>
      simp only [reducer] at hR
      split at hR
      · injection hR with hh; subst hh; exact ⟨h, hH, hL⟩
      · simp only [hH] at hR
        injection hR with hh; subst hh
        exact ⟨h, rfl, Nat.le_refl h⟩
  | APPEND_BUFFER p =>
      simp only [reducer, appendBufferOf] at hR
      split at hR
      · injection hR with hh; subst hh; exact ⟨h, hH, hL⟩
      split at hR
      · injection hR with hh; subst hh; exact ⟨h, hH, hL⟩
      split at hR
      · injection hR with hh; subst hh; exact ⟨h, hH, hL⟩
      split at hR
      · injection hR with hh; subst hh; exact ⟨h, hH, hL⟩
      split at hR
      · exact absurd hR (by simp)
      · -- mismatch branch: level and highestLevel untouched
        injection hR with hh; subst hh; exact ⟨h, hH, hL⟩
      · split at hR
        · -- completion
          split at hR
          · -- target WPM hit
            split at hR
            · -- streak target reached
              split at hR
              · -- finished: both fields untouched
                injection hR with hh; subst hh; exact ⟨h, hH, hL⟩
              · -- level advance: highestLevel raised by max
                injection hR with hh; subst hh
                exact ⟨_, rfl, le_sup_right⟩
            · injection hR with hh; subst hh; exact ⟨h, hH, hL⟩
          · split at hR
            · split at hR
              · injection hR with hh; subst hh; exact ⟨h, hH, hL⟩
              · injection hR with hh; subst hh
                exact ⟨_, rfl, le_sup_right⟩
            · injection hR with hh; subst hh; exact ⟨h, hH, hL⟩
        · split at hR
          · -- mid-word
            injection hR with hh; subst hh; exact ⟨h, hH, hL⟩
          · split at hR
            · -- wpm undefined
              injection hR with hh; subst hh; exact ⟨h, hH, hL⟩
            · -- replay branches
              split at hR
              · injection hR with hh; subst hh; exact ⟨h, hH, hL⟩
              split at hR
              · injection hR with hh; subst hh; exact ⟨h, hH, hL⟩
              · injection hR with hh; subst hh; exact ⟨h, hH, hL⟩

/-- C9 witness: `SAVE_STATE` at `baseState` preserves the invariant. -/
theorem level_le_highest_invariant_witness :
    (baseState.highestLevel = some 0
      ∧ baseState.level ≤ 0
      ∧ reducer baseState Action.SAVE_STATE 3 = some { baseState with lastSave := some 3 })
    ∧ ∃ h2, ({ baseState with lastSave := some 3 } : State).highestLevel = some h2
        ∧ ({ baseState with lastSave := some 3 } : State).level ≤ h2 :=
  ⟨by decide,
    level_le_highest_invariant baseState Action.SAVE_STATE 3 0 (by decide)
      (by decide) (fun p hp => Action.noConfusion hp)
      { baseState with lastSave := some 3 } (by decide)⟩

end BurstType
